import Mathlib

/-!
# QuestAtlas map view: shallow embedding and verification

This file embeds the interactive map view of the QuestAtlas board
(`static/app.js`) in Lean 4 and settles the specified properties of the
camera transform, the region classifier, the hit test, the drag / release
/ delete / save / wheel / random-place handlers.

Coordinates are modelled as rationals (`ℚ`): the JS source computes with
IEEE doubles, and the spec's "up to floating-point tolerance" statements
are rendered as exact rational identities.  Event handlers are modelled
as pure functions from the state they read (quest list, camera, drag /
selection state, and the outcome of the network round-trip, passed in as
an `Except` value) to the state they write.
-/

namespace QuestAtlas

/-- World rectangle; `const WORLD = { w: 1800, h: 1000 }` in the source. -/
structure WorldSize where
  w : ℚ
  h : ℚ
deriving DecidableEq, Repr

def WORLD : WorldSize := ⟨1800, 1000⟩

/-- A board region: vertical slice `[x0, x1)` of world X, bound to a status
key; mirrors the objects of the `REGIONS` array in the source. -/
structure Region where
  key : String
  name : String
  x0 : ℚ
  x1 : ℚ
  color : String
deriving DecidableEq, Repr

/-- `const REGIONS = [...]` from the source, in source order. -/
def REGIONS : List Region :=
  [⟨"backlog", "Village", 0,    600,  "rgba(123, 211, 255, 0.12)"⟩,
   ⟨"doing",   "Trail",   600,  1200, "rgba(255, 211, 123, 0.12)"⟩,
   ⟨"done",    "Castle",  1200, 1800, "rgba(178, 141, 255, 0.12)"⟩]

/-- `regionForX(x)`: first region with `x0 <= x && x < x1`, else the last
region (`REGIONS[REGIONS.length - 1]`). -/
def regionForX (x : ℚ) : Region :=
  match REGIONS.find? (fun r => decide (r.x0 ≤ x ∧ x < r.x1)) with
  | some r => r
  | none => REGIONS.getLast (by simp [REGIONS])

/-- Camera: `const cam = { x: 0, y: 0, z: 1.0 }` — `x`,`y` world offset,
`z` zoom. -/
structure Camera where
  x : ℚ
  y : ℚ
  z : ℚ
deriving DecidableEq, Repr

/-- `worldToScreen(wx, wy)` from the source. -/
def worldToScreen (cam : Camera) (wx wy : ℚ) : ℚ × ℚ :=
  ((wx - cam.x) * cam.z, (wy - cam.y) * cam.z)

/-- `screenToWorld(sx, sy)` from the source. -/
def screenToWorld (cam : Camera) (sx sy : ℚ) : ℚ × ℚ :=
  (sx / cam.z + cam.x, sy / cam.z + cam.y)

/-- `clampCamera()` from the source; the canvas size is passed explicitly
(the JS reads `canvas.width` / `canvas.height`). -/
def clampCamera (canvasW canvasH : ℚ) (cam : Camera) : Camera :=
  let viewW := canvasW / cam.z
  let viewH := canvasH / cam.z
  ⟨max 0 (min cam.x (WORLD.w - viewW)),
   max 0 (min cam.y (WORLD.h - viewH)),
   cam.z⟩

/-- JavaScript's `String.prototype.trim`: strip leading and trailing
whitespace.  (Structurally recursive so that concrete instances evaluate;
the claims depend only on whether the trimmed title is empty.) -/
def jsTrim (s : String) : String :=
  ⟨((s.data.dropWhile Char.isWhitespace).reverse.dropWhile
      Char.isWhitespace).reverse⟩

/-- A quest record as mirrored locally from the server. -/
structure Quest where
  id : Nat
  title : String
  note : String
  status : String
  x : ℚ
  y : ℚ
  created_at : String
deriving DecidableEq, Repr

/-- The body of the hit predicate of `questAtScreen`: squared screen
distance from the quest's projected center at most `18 * 18`. -/
def inHitRadius (cam : Camera) (sx sy : ℚ) (q : Quest) : Bool :=
  let p := worldToScreen cam q.x q.y
  let dx := sx - p.1
  let dy := sy - p.2
  decide (dx * dx + dy * dy ≤ 18 * 18)

/-- `questAtScreen(sx, sy)` from the source: iterate `quests` in array
order and return the first within the hit radius, else `null`. -/
def questAtScreen (cam : Camera) (quests : List Quest) (sx sy : ℚ) :
    Option Quest :=
  quests.find? (inHitRadius cam sx sy)

/-- Modelled from the spec's words for the refinement comparison of the
hit test: "the topmost marker under the point", i.e. the qualifying quest
drawn last.  The renderer (`draw`) paints `for (const q of quests)`, so
later list entries are drawn on top; the topmost qualifying quest is the
last qualifying entry of the list. -/
def topmostQuestAtScreen (cam : Camera) (quests : List Quest) (sx sy : ℚ) :
    Option Quest :=
  (quests.filter (inHitRadius cam sx sy)).getLast?

/-- The `dragging` interaction record from the source. -/
structure DragState where
  active : Bool
  questId : Nat
  offsetX : ℚ
  offsetY : ℚ
deriving DecidableEq, Repr

/-- Replace the first list entry with the given id (the JS code mutates
the object returned by `quests.find`, which is the first match). -/
def replaceFirstById (quests : List Quest) (qid : Nat)
    (f : Quest → Quest) : List Quest :=
  match quests with
  | [] => []
  | q :: rest =>
    if q.id = qid then f q :: rest else q :: replaceFirstById rest qid f

/-- The mutation the `mousemove` dragging branch applies to the dragged
quest: position set to the pointer world point minus the grab offset,
clamped to the world rectangle, and status recomputed from the new x. -/
def dragUpdate (cam : Camera) (d : DragState) (sx sy : ℚ)
    (q : Quest) : Quest :=
  let w := screenToWorld cam sx sy
  let nx := max 0 (min WORLD.w (w.1 - d.offsetX))
  let ny := max 0 (min WORLD.h (w.2 - d.offsetY))
  { q with x := nx, y := ny, status := (regionForX nx).key }

/-- The `mousemove` handler's dragging branch (source lines 349–363):
find the dragged quest, bail out if absent, else apply `dragUpdate` to it
in place. -/
def mousemoveDragging (cam : Camera) (quests : List Quest) (d : DragState)
    (sx sy : ℚ) : List Quest :=
  match quests.find? (fun q => q.id == d.questId) with
  | none => quests
  | some _ => replaceFirstById quests d.questId (dragUpdate cam d sx sy)

/-- Outcome of the `mousedown` handler. -/
inductive MouseDownResult where
  | ignored : MouseDownResult
  | startPan (startSX startSY startCamX startCamY : ℚ) : MouseDownResult
  | startDrag (selectedQuestId : Nat) (d : DragState) : MouseDownResult
deriving DecidableEq, Repr

/-- The `mousedown` handler (source lines 375–401): ignored while placing;
pans on space / middle button; else hit-tests and starts a drag with the
grab offset recorded in world units. -/
def mousedown (placingActive isSpaceDown : Bool) (button : Nat)
    (cam : Camera) (quests : List Quest) (sx sy : ℚ) : MouseDownResult :=
  if placingActive then .ignored
  else if isSpaceDown || button == 1 then .startPan sx sy cam.x cam.y
  else
    match questAtScreen cam quests sx sy with
    | some hit =>
      let w := screenToWorld cam sx sy
      .startDrag hit.id ⟨true, hit.id, w.1 - hit.x, w.2 - hit.y⟩
    | none => .ignored

/-- What the `mouseup` dragging branch produces: the (unchanged) quest
list, the PATCH request issued (id, x, y, status) when the dragged quest
was found, the quest whose panel was opened (if any), and the toast shown
on a failed round-trip. -/
structure DragReleaseResult where
  quests : List Quest
  request : Option (Nat × ℚ × ℚ × String)
  panelOpened : Option Quest
  toastMsg : Option String
deriving DecidableEq, Repr

/-- The `mouseup` handler's dragging branch (source lines 432–452): finds
the dragged quest, issues `PATCH {x, y, status}` (the response value is
never read — only a failure produces a toast), then hit-tests the release
point and opens the panel when the hit's id equals `selectedQuestId`. -/
def mouseupDragging (cam : Camera) (quests : List Quest) (d : DragState)
    (selectedQuestId : Option Nat) (patchResult : Except String Quest)
    (sx sy : ℚ) : DragReleaseResult :=
  let found := quests.find? (fun x => x.id == d.questId)
  let req := found.map (fun q => (q.id, q.x, q.y, q.status))
  let toastMsg :=
    match found, patchResult with
    | some _, .error msg => some msg
    | _, _ => none
  let hit := questAtScreen cam quests sx sy
  let panel :=
    match hit, selectedQuestId with
    | some h, some sel => if h.id = sel then some h else none
    | _, _ => none
  ⟨quests, req, panel, toastMsg⟩

/-- The `qpSave` click handler (source lines 539–559): no-op when no
selected quest is found; rejects an empty trimmed title with a toast and
no request; otherwise issues `PATCH {title, note}` and, on success, maps
the server's returned object over every entry with the quest's id and
re-opens the panel on it; on failure only toasts.  Returns (quest list,
new selected id, toast). -/
def qpSaveClick (quests : List Quest) (selectedQuestId : Option Nat)
    (titleField noteField : String) (patchResult : Except String Quest) :
    List Quest × Option Nat × Option String :=
  match selectedQuestId.bind
      (fun sel => quests.find? (fun x => x.id == sel)) with
  | none => (quests, selectedQuestId, none)
  | some q =>
    let newTitle := jsTrim titleField
    let _newNote := jsTrim noteField
    if newTitle = "" then (quests, selectedQuestId, some "Title cannot be empty")
    else
      match patchResult with
      | .ok updated =>
        (quests.map (fun x => if x.id = q.id then updated else x),
         some updated.id, some "Saved")
      | .error msg => (quests, selectedQuestId, some msg)

/-- The `qpDelete` click handler (source lines 561–575): no-op when no
selected quest is found; otherwise awaits `DELETE` and, only on success,
filters the quest out, toasts "Deleted" and closes the panel; on failure
the list is untouched and the error message is toasted.  Returns (quest
list, new selected id, toast). -/
def qpDeleteClick (quests : List Quest) (selectedQuestId : Option Nat)
    (deleteResult : Except String Unit) :
    List Quest × Option Nat × Option String :=
  match selectedQuestId.bind
      (fun sel => quests.find? (fun x => x.id == sel)) with
  | none => (quests, selectedQuestId, none)
  | some q =>
    match deleteResult with
    | .ok _ =>
      (quests.filter (fun x => x.id != q.id), none, some "Deleted")
    | .error msg => (quests, selectedQuestId, some msg)

/-- The `wheel` handler (source lines 462–481) up to — but not including —
the final `clampCamera()`: compute the pre-zoom world image of the cursor,
rescale the zoom by `0.92` / `1.08` (by the sign of `deltaY`) clamped to
`[0.55, 1.9]`, compute the post-zoom world image, and shift the offset by
the difference. -/
def wheelZoomPreClamp (cam : Camera) (sx sy deltaY : ℚ) : Camera :=
  let before := screenToWorld cam sx sy
  let delta : ℚ := if deltaY > 0 then 1 else if deltaY < 0 then -1 else 0
  let factor : ℚ := if delta > 0 then 92 / 100 else 108 / 100
  let z1 := max (55 / 100) (min (19 / 10) (cam.z * factor))
  let cam1 : Camera := ⟨cam.x, cam.y, z1⟩
  let after := screenToWorld cam1 sx sy
  ⟨cam1.x + (before.1 - after.1), cam1.y + (before.2 - after.2), z1⟩

/-- The full `wheel` handler: the zoom-at-cursor adjustment followed by
`clampCamera()`. -/
def wheelZoom (canvasW canvasH : ℚ) (cam : Camera) (sx sy deltaY : ℚ) :
    Camera :=
  clampCamera canvasW canvasH (wheelZoomPreClamp cam sx sy deltaY)

/-- Body of a `POST /api/quests` create request. -/
structure CreatePayload where
  title : String
  note : String
  status : String
  x : ℚ
  y : ℚ
deriving DecidableEq, Repr

/-- The `randomPlaceBtn` click handler (source lines 505–536): rejects an
empty trimmed title; otherwise picks `REGIONS[floor(u1 * length)]`, samples
`x = x0 + 60 + u2 * (x1 - x0 - 120)` and `y = 90 + u3 * (WORLD.h - 180)`,
and immediately issues the create request with the region's status key
(the `Math.random()` draws are passed in as `u1 u2 u3`).  Returns the
issued payload, or `none` when the title was rejected. -/
def randomPlaceClick (titleField noteField : String) (u1 u2 u3 : ℚ) :
    Option CreatePayload :=
  let t := jsTrim titleField
  if t = "" then none
  else
    match REGIONS[(⌊u1 * (REGIONS.length : ℚ)⌋).toNat]? with
    | none => none
    | some r =>
      some ⟨t, jsTrim noteField, r.key,
            r.x0 + 60 + u2 * (r.x1 - r.x0 - 120),
            90 + u3 * (WORLD.h - 180)⟩


/-! ## Concrete sample data used by counterexamples and witnesses -/

/-- Identity-ish camera: offset `(0,0)`, zoom `1`. -/
def idCam : Camera := ⟨0, 0, 1⟩

/-- A quest at world `(100, 100)`; first (bottommost-drawn) in the sample
overlap pair. -/
def hitQuestA : Quest := ⟨1, "A", "", "backlog", 100, 100, "t"⟩

/-- A quest at world `(104, 100)`; second (topmost-drawn) in the sample
overlap pair. -/
def hitQuestB : Quest := ⟨2, "B", "", "backlog", 104, 100, "t"⟩

/-- Sample quest with id 7, as held locally before a PATCH round-trip. -/
def quest7old : Quest := ⟨7, "old title", "a note", "backlog", 100, 100, "c1"⟩

/-- The canonical merged object the server returns for quest 7. -/
def quest7srv : Quest := ⟨7, "old title", "a note", "done", 1250, 300, "c2"⟩

/-- Quest grabbed at its center for the drag-gesture scenario. -/
def gestureQuest : Quest := ⟨1, "Quest", "", "backlog", 100, 100, "t"⟩

/-- `gestureQuest` after the drag to world `(600, 100)`. -/
def gestureMoved : Quest := ⟨1, "Quest", "", "doing", 600, 100, "t"⟩

/-! ## Claims -/

/-- C10: for every `x < 0`, `regionForX` returns the last region (key
`"done"`, the Castle), not the first: the fallback branch catches
coordinates below the world's left edge as well. -/
theorem c10_negative_x_classifies_done (x : ℚ) (hx : x < 0) :
    regionForX x = ⟨"done", "Castle", 1200, 1800, "rgba(178, 141, 255, 0.12)"⟩ ∧
    (regionForX x).key = "done" := by
  have hfind : REGIONS.find? (fun r => decide (r.x0 ≤ x ∧ x < r.x1)) = none := by
    simp only [List.find?_eq_none, REGIONS, List.mem_cons, List.mem_singleton]
    rintro r (rfl | rfl | rfl | h)
    · simp only [decide_eq_true_eq, not_and]
      intro h0; linarith
    · simp only [decide_eq_true_eq, not_and]
      intro h0; linarith
    · simp only [decide_eq_true_eq, not_and]
      intro h0; linarith
    · cases h
  have hlast : regionForX x = REGIONS.getLast (by simp [REGIONS]) := by
    unfold regionForX
    rw [hfind]
  rw [hlast]
  constructor <;> rfl

/-- C10 witness: `regionForX (-1)` is the Castle / `"done"` region. -/
theorem c10_witness :
    regionForX (-1) = ⟨"done", "Castle", 1200, 1800, "rgba(178, 141, 255, 0.12)"⟩ ∧
    (regionForX (-1)).key = "done" :=
  c10_negative_x_classifies_done (-1) (by norm_num)

/-- C6: for every world point and camera with nonzero zoom,
`screenToWorld` inverts `worldToScreen` exactly. -/
theorem c6_world_screen_roundtrip (cam : Camera) (wx wy : ℚ) (hz : cam.z ≠ 0) :
    screenToWorld cam (worldToScreen cam wx wy).1 (worldToScreen cam wx wy).2
      = (wx, wy) := by
  simp only [screenToWorld, worldToScreen]
  refine Prod.ext ?_ ?_ <;> field_simp

/-- C6 witness: round-trip of world point `(10, 20)` through the camera
`⟨3, 4, 2⟩`. -/
theorem c6_witness :
    screenToWorld ⟨3, 4, 2⟩ (worldToScreen ⟨3, 4, 2⟩ 10 20).1
      (worldToScreen ⟨3, 4, 2⟩ 10 20).2 = (10, 20) :=
  c6_world_screen_roundtrip ⟨3, 4, 2⟩ 10 20 (by norm_num)

/-- C7: after `clampCamera`, on each axis the viewport rectangle
`[offset, offset + canvas/zoom]` lies inside the world whenever the
viewport does not exceed the world, and the offset is pinned to `0`
whenever the viewport exceeds the world. -/
theorem c7_clamp_viewport_in_world (canvasW canvasH : ℚ) (cam : Camera) :
    (canvasW / cam.z ≤ WORLD.w →
      0 ≤ (clampCamera canvasW canvasH cam).x ∧
      (clampCamera canvasW canvasH cam).x + canvasW / cam.z ≤ WORLD.w) ∧
    (WORLD.w < canvasW / cam.z → (clampCamera canvasW canvasH cam).x = 0) ∧
    (canvasH / cam.z ≤ WORLD.h →
      0 ≤ (clampCamera canvasW canvasH cam).y ∧
      (clampCamera canvasW canvasH cam).y + canvasH / cam.z ≤ WORLD.h) ∧
    (WORLD.h < canvasH / cam.z → (clampCamera canvasW canvasH cam).y = 0) := by
  simp only [clampCamera, WORLD]
  refine ⟨?_, ?_, ?_, ?_⟩
  · intro h
    refine ⟨le_max_left _ _, ?_⟩
    have h2 : min cam.x (1800 - canvasW / cam.z) ≤ 1800 - canvasW / cam.z :=
      min_le_right _ _
    have h3 : max 0 (min cam.x (1800 - canvasW / cam.z)) ≤ 1800 - canvasW / cam.z :=
      max_le (by linarith) h2
    linarith
  · intro h
    exact max_eq_left (le_trans (min_le_right _ _) (by linarith))
  · intro h
    refine ⟨le_max_left _ _, ?_⟩
    have h2 : min cam.y (1000 - canvasH / cam.z) ≤ 1000 - canvasH / cam.z :=
      min_le_right _ _
    have h3 : max 0 (min cam.y (1000 - canvasH / cam.z)) ≤ 1000 - canvasH / cam.z :=
      max_le (by linarith) h2
    linarith
  · intro h
    exact max_eq_left (le_trans (min_le_right _ _) (by linarith))

/-- C7 witness: camera `⟨5000, -50, 1⟩` with an 800×600 canvas: both
viewports are smaller than the world, and the clamped viewport lies
inside `[0,1800] × [0,1000]`. -/
theorem c7_witness :
    (0 ≤ (clampCamera 800 600 ⟨5000, -50, 1⟩).x ∧
      (clampCamera 800 600 ⟨5000, -50, 1⟩).x + 800 / (1 : ℚ) ≤ WORLD.w) ∧
    (0 ≤ (clampCamera 800 600 ⟨5000, -50, 1⟩).y ∧
      (clampCamera 800 600 ⟨5000, -50, 1⟩).y + 600 / (1 : ℚ) ≤ WORLD.h) :=
  ⟨(c7_clamp_viewport_in_world 800 600 ⟨5000, -50, 1⟩).1 (by norm_num [WORLD]),
   (c7_clamp_viewport_in_world 800 600 ⟨5000, -50, 1⟩).2.2.1 (by norm_num [WORLD])⟩

/-- C4: the drag-move update sets the quest's position to the pointer
world point minus the grab offset clamped into `[0,1800] × [0,1000]`, and
its status to `regionForX` of its new x; and `regionForX 650` is the
`"doing"` region. -/
theorem c4_drag_position_and_status (cam : Camera) (d : DragState)
    (sx sy : ℚ) (q : Quest) :
    (dragUpdate cam d sx sy q).x
        = max 0 (min WORLD.w ((screenToWorld cam sx sy).1 - d.offsetX)) ∧
    (dragUpdate cam d sx sy q).y
        = max 0 (min WORLD.h ((screenToWorld cam sx sy).2 - d.offsetY)) ∧
    0 ≤ (dragUpdate cam d sx sy q).x ∧ (dragUpdate cam d sx sy q).x ≤ 1800 ∧
    0 ≤ (dragUpdate cam d sx sy q).y ∧ (dragUpdate cam d sx sy q).y ≤ 1000 ∧
    (dragUpdate cam d sx sy q).status
        = (regionForX (dragUpdate cam d sx sy q).x).key ∧
    (regionForX 650).key = "doing" := by
  refine ⟨rfl, rfl, le_max_left _ _,
    max_le (by norm_num) (le_trans (min_le_left _ _) (by norm_num [WORLD])),
    le_max_left _ _,
    max_le (by norm_num) (le_trans (min_le_left _ _) (by norm_num [WORLD])),
    rfl, by decide⟩

/-- C5 (amended): the wheel handler's zoom-at-cursor adjustment keeps the
world point under the cursor exactly fixed up to — but not including —
the final `clampCamera`; the full handler is that adjustment followed by
`clampCamera`, so the point is also fixed whenever the clamp leaves the
camera unchanged. -/
theorem c5_zoom_at_cursor_fixed_up_to_clamp (canvasW canvasH : ℚ)
    (cam : Camera) (sx sy deltaY : ℚ) :
    screenToWorld (wheelZoomPreClamp cam sx sy deltaY) sx sy
        = screenToWorld cam sx sy ∧
    wheelZoom canvasW canvasH cam sx sy deltaY
        = clampCamera canvasW canvasH (wheelZoomPreClamp cam sx sy deltaY) ∧
    (clampCamera canvasW canvasH (wheelZoomPreClamp cam sx sy deltaY)
        = wheelZoomPreClamp cam sx sy deltaY →
      screenToWorld (wheelZoom canvasW canvasH cam sx sy deltaY) sx sy
        = screenToWorld cam sx sy) := by
  refine ⟨?_, rfl, ?_⟩
  · simp only [wheelZoomPreClamp, screenToWorld]
    refine Prod.ext ?_ ?_ <;> ring
  · intro h
    rw [wheelZoom, h]
    simp only [wheelZoomPreClamp, screenToWorld]
    refine Prod.ext ?_ ?_ <;> ring

/-- C5 witness: zooming in at cursor `(400, 300)` from camera
`⟨100, 100, 1⟩` (clamp is a no-op there) keeps the world point under the
cursor fixed across the full wheel handler. -/
theorem c5_witness :
    screenToWorld (wheelZoom 800 600 ⟨100, 100, 1⟩ 400 300 (-1)) 400 300
      = screenToWorld ⟨100, 100, 1⟩ 400 300 :=
  (c5_zoom_at_cursor_fixed_up_to_clamp 800 600 ⟨100, 100, 1⟩ 400 300 (-1)).2.2
    (by norm_num [clampCamera, wheelZoomPreClamp, screenToWorld, WORLD,
      Camera.mk.injEq])

/-- C5 counterexample: zooming out at cursor `(0,0)` with the camera at
the world's right edge (`⟨1000, 0, 1⟩`, 800×600 canvas): the final
`clampCamera` pulls the offset back, so the world point under the cursor
moves (from `1000` to `21400/23`), refuting invariance for the full
operation including the clamp. -/
theorem c5_counterexample :
    screenToWorld (wheelZoom 800 600 ⟨1000, 0, 1⟩ 0 0 1) 0 0
      ≠ screenToWorld ⟨1000, 0, 1⟩ 0 0 := by
  norm_num [wheelZoom, wheelZoomPreClamp, clampCamera, screenToWorld, WORLD,
    Prod.ext_iff]

/-- C1 (amended): the hit test returns the FIRST quest in insertion order
(the renderer's bottom-to-top draw order) whose projected center lies
within the 18-pixel radius — the bottommost qualifying marker, not the
topmost — and no hit when none qualify. -/
theorem c1_hit_test_returns_first_match (cam : Camera) (quests : List Quest)
    (sx sy : ℚ) :
    (∀ q, questAtScreen cam quests sx sy = some q →
      inHitRadius cam sx sy q = true ∧
      ∃ l1 l2, quests = l1 ++ q :: l2 ∧
        ∀ p ∈ l1, inHitRadius cam sx sy p = false) ∧
    (questAtScreen cam quests sx sy = none →
      ∀ q ∈ quests, inHitRadius cam sx sy q = false) := by
  constructor
  · intro q hq
    rw [questAtScreen, List.find?_eq_some] at hq
    obtain ⟨hp, as, bs, heq, hall⟩ := hq
    exact ⟨hp, as, bs, heq, fun p hp' => by simpa using hall p hp'⟩
  · intro hnone q hq
    rw [questAtScreen, List.find?_eq_none] at hnone
    simpa using hnone q hq

/-- C1 counterexample: two overlapping markers; the renderer draws
`hitQuestB` last (on top), yet `questAtScreen` returns `hitQuestA`, the
bottommost qualifying marker, refuting "returns the topmost". -/
theorem c1_counterexample :
    questAtScreen idCam [hitQuestA, hitQuestB] 102 100 = some hitQuestA ∧
    topmostQuestAtScreen idCam [hitQuestA, hitQuestB] 102 100 = some hitQuestB ∧
    hitQuestA ≠ hitQuestB ∧
    inHitRadius idCam 102 100 hitQuestA = true ∧
    inHitRadius idCam 102 100 hitQuestB = true := by
  have hA : inHitRadius idCam 102 100 hitQuestA = true := by
    norm_num [inHitRadius, worldToScreen, idCam, hitQuestA]
  have hB : inHitRadius idCam 102 100 hitQuestB = true := by
    norm_num [inHitRadius, worldToScreen, idCam, hitQuestB]
  refine ⟨?_, ?_, by decide, hA, hB⟩
  · rw [questAtScreen, List.find?_cons_of_pos _ hA]
  · simp [topmostQuestAtScreen, List.filter, hA, hB]

/-- C1 witness: on `[hitQuestA, hitQuestB]` at screen `(102, 100)` the
returned quest is a qualifying one preceded only by non-qualifying
entries. -/
theorem c1_witness :
    inHitRadius idCam 102 100 hitQuestA = true ∧
    ∃ l1 l2, [hitQuestA, hitQuestB] = l1 ++ hitQuestA :: l2 ∧
      ∀ p ∈ l1, inHitRadius idCam 102 100 p = false :=
  (c1_hit_test_returns_first_match idCam [hitQuestA, hitQuestB] 102 100).1
    hitQuestA (by
      have hA : inHitRadius idCam 102 100 hitQuestA = true := by
        norm_num [inHitRadius, worldToScreen, idCam, hitQuestA]
      rw [questAtScreen, List.find?_cons_of_pos _ hA])

/-- C2 (amended): the delete handler removes the quest from the local
collection only after a successful `DELETE` round-trip; on failure the
quest remains in the collection and only a transient error notice is
shown (the removal is not optimistic). -/
theorem c2_delete_removes_only_on_success (quests : List Quest)
    (sel : Option Nat) (q : Quest) (msg : String)
    (hfind : sel.bind (fun s => quests.find? (fun x => x.id == s)) = some q) :
    qpDeleteClick quests sel (Except.error msg) = (quests, sel, some msg) ∧
    qpDeleteClick quests sel (Except.ok ())
      = (quests.filter (fun x => x.id != q.id), none, some "Deleted") := by
  unfold qpDeleteClick
  rw [hfind]
  exact ⟨rfl, rfl⟩

/-- C2 counterexample: a failed `DELETE` (HTTP 500) for selected quest 7
leaves it present in the local collection, refuting "the quest is absent
afterwards". -/
theorem c2_counterexample :
    (qpDeleteClick [quest7old] (some 7) (Except.error "HTTP 500")).1
      = [quest7old] ∧
    quest7old ∈ (qpDeleteClick [quest7old] (some 7) (Except.error "HTTP 500")).1 := by
  decide

/-- C2 witness: concrete failure and success outcomes of the delete
handler on `[quest7old]` with quest 7 selected. -/
theorem c2_witness :
    qpDeleteClick [quest7old] (some 7) (Except.error "HTTP 500")
      = ([quest7old], some 7, some "HTTP 500") ∧
    qpDeleteClick [quest7old] (some 7) (Except.ok ())
      = ([quest7old].filter (fun x => x.id != quest7old.id), none, some "Deleted") :=
  c2_delete_removes_only_on_success [quest7old] (some 7) quest7old "HTTP 500"
    (by decide)

/-- C3 (amended): only the panel-save PATCH applies the server's returned
object: on success it replaces every entry with the saved quest's id by
the server's full record.  The drag-release PATCH discards the server's
response entirely — the mouseup handler leaves the local collection
unchanged whatever the round-trip returns. -/
theorem c3_save_replaces_drag_discards (quests : List Quest)
    (sel : Option Nat) (q : Quest) (titleField noteField : String)
    (updated : Quest)
    (hfind : sel.bind (fun s => quests.find? (fun x => x.id == s)) = some q)
    (ht : ¬jsTrim titleField = "") :
    (qpSaveClick quests sel titleField noteField (Except.ok updated)).1
        = quests.map (fun x => if x.id = q.id then updated else x) ∧
    (q ∈ quests →
      updated ∈ (qpSaveClick quests sel titleField noteField (Except.ok updated)).1) ∧
    ∀ (cam : Camera) (d : DragState) (patchResult : Except String Quest)
      (sx sy : ℚ),
      (mouseupDragging cam quests d sel patchResult sx sy).quests = quests := by
  have hmain : qpSaveClick quests sel titleField noteField (Except.ok updated)
      = (quests.map (fun x => if x.id = q.id then updated else x),
         some updated.id, some "Saved") := by
    simp only [qpSaveClick, hfind, if_neg ht]
  refine ⟨by rw [hmain], ?_, ?_⟩
  · intro hq
    rw [hmain]
    exact List.mem_map.mpr ⟨q, hq, by simp⟩
  · intro cam d patchResult sx sy
    rfl

/-- C3 counterexample: a successful drag-release PATCH of quest 7 whose
server response `quest7srv` is the canonical merged record: the local
collection still holds the old record and the server object is nowhere in
it — the response did not replace the local quest's record. -/
theorem c3_counterexample :
    (mouseupDragging idCam [quest7old] ⟨true, 7, 0, 0⟩ (some 7)
        (Except.ok quest7srv) 100 100).request = some (7, 100, 100, "backlog") ∧
    (mouseupDragging idCam [quest7old] ⟨true, 7, 0, 0⟩ (some 7)
        (Except.ok quest7srv) 100 100).quests = [quest7old] ∧
    quest7old ≠ quest7srv ∧ quest7srv ∉ [quest7old] := by
  refine ⟨rfl, rfl, by decide, by decide⟩

/-- C3 witness: saving quest 7 from the panel replaces its record with the
server's `quest7srv` in full, while a drag release on the same state
leaves the collection untouched. -/
theorem c3_witness :
    (qpSaveClick [quest7old] (some 7) "T" "" (Except.ok quest7srv)).1
        = [quest7old].map (fun x => if x.id = quest7old.id then quest7srv else x) ∧
    quest7srv ∈ (qpSaveClick [quest7old] (some 7) "T" "" (Except.ok quest7srv)).1 ∧
    (mouseupDragging idCam [quest7old] ⟨true, 7, 0, 0⟩ (some 7)
        (Except.ok quest7srv) 3 4).quests = [quest7old] := by
  have h := c3_save_replaces_drag_discards [quest7old] (some 7) quest7old
    "T" "" quest7srv (by decide) (by decide)
  exact ⟨h.1, h.2.1 (by decide),
    h.2.2 idCam ⟨true, 7, 0, 0⟩ (Except.ok quest7srv) 3 4⟩

/-- C8: a full drag gesture on `gestureQuest` grabbed dead-center at
screen `(100,100)` and released at `(600,100)` — net pointer movement
`500` pixels, far above any click threshold.  The release handler issues
the PATCH for the dragged quest AND opens its detail panel: because the
dragged quest follows the pointer, the release-point hit test still
returns it, so the panel opens regardless of the gesture's length,
contradicting the code's own comment ("click-release with minimal
movement should open panel") and the claim. -/
theorem c8_long_drag_still_opens_panel :
    mousedown false false 0 idCam [gestureQuest] 100 100
        = .startDrag 1 ⟨true, 1, 0, 0⟩ ∧
    mousemoveDragging idCam [gestureQuest] ⟨true, 1, 0, 0⟩ 600 100
        = [gestureMoved] ∧
    (mouseupDragging idCam [gestureMoved] ⟨true, 1, 0, 0⟩ (some 1)
        (Except.ok gestureMoved) 600 100).request
        = some (1, 600, 100, "doing") ∧
    (mouseupDragging idCam [gestureMoved] ⟨true, 1, 0, 0⟩ (some 1)
        (Except.ok gestureMoved) 600 100).panelOpened = some gestureMoved ∧
    ((600 : ℚ) - 100) * (600 - 100) + (100 - 100) * (100 - 100) = 500 * 500 := by
  have h1 : mousedown false false 0 idCam [gestureQuest] 100 100
      = .startDrag 1 ⟨true, 1, 0, 0⟩ := by
    have hq : questAtScreen idCam [gestureQuest] 100 100 = some gestureQuest := by
      have h : inHitRadius idCam 100 100 gestureQuest = true := by
        norm_num [inHitRadius, worldToScreen, idCam, gestureQuest]
      rw [questAtScreen, List.find?_cons_of_pos _ h]
    simp only [mousedown, Bool.false_or, if_neg (by decide : ¬(false = true))]
    rw [hq]
    norm_num [screenToWorld, idCam, gestureQuest, MouseDownResult.startDrag.injEq,
      DragState.mk.injEq]
  have h2 : mousemoveDragging idCam [gestureQuest] ⟨true, 1, 0, 0⟩ 600 100
      = [gestureMoved] := by
    have hreg : regionForX 600
        = ⟨"doing", "Trail", 600, 1200, "rgba(255, 211, 123, 0.12)"⟩ := by
      decide
    have hfind : List.find? (fun q => q.id == (1 : Nat)) [gestureQuest]
        = some gestureQuest := by decide
    simp only [mousemoveDragging]
    rw [hfind]
    simp only [replaceFirstById, dragUpdate, screenToWorld, idCam, gestureQuest,
      gestureMoved, WORLD]
    norm_num [max_def, min_def, hreg]
  have h3 : mouseupDragging idCam [gestureMoved] ⟨true, 1, 0, 0⟩ (some 1)
      (Except.ok gestureMoved) 600 100
      = ⟨[gestureMoved], some (1, 600, 100, "doing"), some gestureMoved, none⟩ := by
    have hhit : inHitRadius idCam 600 100 gestureMoved = true := by
      norm_num [inHitRadius, worldToScreen, idCam, gestureMoved]
    simp only [mouseupDragging, questAtScreen]
    rw [List.find?_cons_of_pos _ hhit]
    simp [gestureMoved]
  refine ⟨h1, h2, ?_, ?_, by norm_num⟩ <;> rw [h3]

/-- C9: for every title that is non-empty after trimming and every value
of the random draws, the random-place handler commits a create request
immediately, whose region is one of `REGIONS`, whose status is that
region's key, and whose x lies in `[x0 + 60, x1 - 60)`. -/
theorem c9_random_place_commits_inside_region
    (titleField noteField : String) (u1 u2 u3 : ℚ)
    (ht : ¬jsTrim titleField = "") (h10 : 0 ≤ u1) (h11 : u1 < 1)
    (h20 : 0 ≤ u2) (h21 : u2 < 1) :
    ∃ r p, r ∈ REGIONS ∧
      randomPlaceClick titleField noteField u1 u2 u3 = some p ∧
      p.status = r.key ∧ r.x0 + 60 ≤ p.x ∧ p.x < r.x1 - 60 := by
  have h480a : (0:ℚ) ≤ u2 * 480 := mul_nonneg h20 (by norm_num)
  have h480b : u2 * 480 < 1 * 480 :=
    mul_lt_mul_of_pos_right h21 (by norm_num)
  have hfl0 : 0 ≤ ⌊u1 * ((REGIONS.length : ℕ) : ℚ)⌋ := by
    apply Int.floor_nonneg.mpr
    positivity
  have hfl3 : ⌊u1 * ((REGIONS.length : ℕ) : ℚ)⌋ < 3 := by
    apply Int.floor_lt.mpr
    push_cast
    norm_num [REGIONS]
    nlinarith [h11, h10]
  have hn : (⌊u1 * ((REGIONS.length : ℕ) : ℚ)⌋).toNat = 0 ∨
      (⌊u1 * ((REGIONS.length : ℕ) : ℚ)⌋).toNat = 1 ∨
      (⌊u1 * ((REGIONS.length : ℕ) : ℚ)⌋).toNat = 2 := by omega
  unfold randomPlaceClick
  rw [if_neg ht]
  rcases hn with hn | hn | hn <;> rw [hn]
  · refine ⟨⟨"backlog", "Village", 0, 600, "rgba(123, 211, 255, 0.12)"⟩,
      ⟨jsTrim titleField, jsTrim noteField, "backlog",
        (0:ℚ) + 60 + u2 * (600 - 0 - 120), 90 + u3 * (WORLD.h - 180)⟩,
      by norm_num [REGIONS], rfl, rfl, ?_, ?_⟩
    · show (0:ℚ) + 60 ≤ 0 + 60 + u2 * (600 - 0 - 120)
      linarith
    · show (0:ℚ) + 60 + u2 * (600 - 0 - 120) < 600 - 60
      linarith
  · refine ⟨⟨"doing", "Trail", 600, 1200, "rgba(255, 211, 123, 0.12)"⟩,
      ⟨jsTrim titleField, jsTrim noteField, "doing",
        (600:ℚ) + 60 + u2 * (1200 - 600 - 120), 90 + u3 * (WORLD.h - 180)⟩,
      by norm_num [REGIONS], rfl, rfl, ?_, ?_⟩
    · show (600:ℚ) + 60 ≤ 600 + 60 + u2 * (1200 - 600 - 120)
      linarith
    · show (600:ℚ) + 60 + u2 * (1200 - 600 - 120) < 1200 - 60
      linarith
  · refine ⟨⟨"done", "Castle", 1200, 1800, "rgba(178, 141, 255, 0.12)"⟩,
      ⟨jsTrim titleField, jsTrim noteField, "done",
        (1200:ℚ) + 60 + u2 * (1800 - 1200 - 120), 90 + u3 * (WORLD.h - 180)⟩,
      by norm_num [REGIONS], rfl, rfl, ?_, ?_⟩
    · show (1200:ℚ) + 60 ≤ 1200 + 60 + u2 * (1800 - 1200 - 120)
      linarith
    · show (1200:ℚ) + 60 + u2 * (1800 - 1200 - 120) < 1800 - 60
      linarith

/-- C9 witness: title `"a"`, all three random draws `1/2`: the commit
lands in the Trail / `"doing"` region with x in `[660, 1140)`. -/
theorem c9_witness :
    ∃ r p, r ∈ REGIONS ∧
      randomPlaceClick "a" "" (1/2) (1/2) (1/2) = some p ∧
      p.status = r.key ∧ r.x0 + 60 ≤ p.x ∧ p.x < r.x1 - 60 :=
  c9_random_place_commits_inside_region "a" "" (1/2) (1/2) (1/2)
    (by decide) (by norm_num) (by norm_num) (by norm_num) (by norm_num)

end QuestAtlas
